import Mathlib

/-!
Verification development for the photo-fingerprint engine
(`src/FingerprintStore.cpp`, `src/main.cpp`).

The image backend (Magick++) is out of scope of the repository's core and is
consumed as an opaque capability: an image is a record of the state tags the
code manipulates (resize geometry, depth, compression, defines, named string
attributes) together with an opaque content identifier, and the backend is a
record of the fallible operations (`readImage`, `writeImage`) and the scalar
distortion metric (`compare`).  Machine doubles used for distortion scores are
modelled as rationals; the only operations the code performs on them are
comparisons against the two fixed thresholds.

Each worker's consumption loop is modelled as a function over the list of
paths the DirectoryWalker delivers to that worker, producing the ordered list
of its observable events (stdout lines, stderr lines, backend read calls,
file writes).
-/

/-- Magick++ compression types used by the code (the code only ever sets
`NoCompression`; other constructors stand for any other state). -/
inductive CompressionType where
  | UndefinedCompression
  | NoCompression
  | JPEGCompression
deriving DecidableEq, Repr

/-- The state of one Magick++ `Image` object, restricted to the tags the
repository's code reads or writes.  `content` is an opaque identifier of the
decoded pixel data; `fuzz` is the color-fuzz property set by `colorFuzz`. -/
structure MImage where
  content : String
  geometry : Option String
  depthVal : Nat
  compression : CompressionType
  fuzz : Int
  defines : List (String × String × String)
  attrs : List (String × String)
deriving DecidableEq, Repr

/-- `image.attribute(key)`: Magick++ returns the stored string, or `""` when
the attribute is absent. -/
def MImage.attributeGet (img : MImage) (key : String) : String :=
  match img.attrs.lookup key with
  | some v => v
  | none => ""

/-- `image.attribute(key, value)`: store a named string attribute. -/
def MImage.attributeSet (img : MImage) (key value : String) : MImage :=
  { img with attrs := (key, value) :: img.attrs }

/-- `image.defineValue(magick, key, value)`. -/
def MImage.defineValue (img : MImage) (magick key value : String) : MImage :=
  { img with defines := (magick, key, value) :: img.defines }

/-- `image.depth(n)`. -/
def MImage.depthSet (img : MImage) (n : Nat) : MImage :=
  { img with depthVal := n }

/-- `image.compressType(c)`. -/
def MImage.compressTypeSet (img : MImage) (c : CompressionType) : MImage :=
  { img with compression := c }

/-- `image.resize(spec)`: records the geometry the image was resized to. -/
def MImage.resize (img : MImage) (spec : String) : MImage :=
  { img with geometry := some spec }

/-- `image.colorFuzz(f)`: sets the color-fuzz property consulted by
`compare`. -/
def MImage.colorFuzz (img : MImage) (f : Int) : MImage :=
  { img with fuzz := f }

/-- The opaque image backend capability.  `readImage p` models
`Magick::Image::read(p)`: `.error reason` is a thrown exception whose
`what()` is `reason`.  `writeImage p img` models `write(p)`: `some reason`
is a thrown exception, `none` is success.  `compare probe fp` models
`probe.compare(fp, Magick::RootMeanSquaredErrorMetric)`, a scalar distortion
score that already takes the probe's color-fuzz property into account. -/
structure Backend where
  readImage : String → Except String MImage
  writeImage : String → MImage → Option String
  compare : MImage → MImage → ℚ

/-- Modelled from the spec: the fixed fingerprint resize specification
(`FingerprintSpec`), declared in `FingerprintStore.hpp` which is not under
`src/`; the code comment in `FindMatchesForImage` indicates a 100x100
fingerprint.  No claim depends on the concrete string, only on both
`Generate` and `FindDuplicates` using the same constant. -/
def FingerprintSpec : String := "100x100"

/-- `boost::filesystem::path::filename()` on a path string: the component
after the last directory separator. -/
def pathFilename (p : String) : String :=
  ⟨(p.data.reverse.takeWhile (fun c => c ≠ '/')).reverse⟩

/-- `boost::filesystem::path::stem()` of the filename: the filename with the
substring starting at its last dot removed ("." and ".." have no
extension). -/
def pathStem (p : String) : String :=
  let f := pathFilename p
  if f = "." ∨ f = ".." then f
  else if f.data.contains '.' then ⟨((f.data.reverse.dropWhile (fun c => c ≠ '.')).drop 1).reverse⟩
  else f

/-- `boost::filesystem::path::replace_extension(ext)` on a bare filename:
remove the extension (the substring starting at the last dot) and append
`ext`. -/
def replaceExtension (f ext : String) : String :=
  (if f = "." ∨ f = ".." then f
   else if f.data.contains '.' then (⟨((f.data.reverse.dropWhile (fun c => c ≠ '.')).drop 1).reverse⟩ : String)
   else f) ++ ext

/-- One observable action of a worker: a stdout line, a stderr line, a
backend read call, or a file write. -/
inductive Event where
  | out (line : String)
  | err (line : String)
  | readCall (path : String)
  | write (path : String) (img : MImage)
deriving DecidableEq, Repr

/-- The stdout lines of an event trace, in order. -/
def outLines (evs : List Event) : List String :=
  evs.filterMap fun ev => match ev with
    | .out s => some s
    | _ => none

/-- The stderr lines of an event trace, in order. -/
def errLines (evs : List Event) : List String :=
  evs.filterMap fun ev => match ev with
    | .err s => some s
    | _ => none

/-- The file writes of an event trace, in order. -/
def writeEvents (evs : List Event) : List (String × MImage) :=
  evs.filterMap fun ev => match ev with
    | .write p img => some (p, img)
    | _ => none

/-- The content on disk at path `p` after a trace: the last write to `p`,
each write overwriting the previous content at that path. -/
def writtenAt (evs : List Event) (p : String) : Option MImage :=
  evs.foldl (fun acc ev => match ev with
    | .write q img => if q = p then some img else acc
    | _ => acc) none

/-- `FingerprintStore::FindMatchesForImage` (FingerprintStore.cpp:58-94):
iterate over the fingerprint store; per fingerprint, set the probe's
color fuzz, compute the distortion score, resolve the display name from the
fingerprint's `comment` attribute (falling back to the stored stem), and
print an "is identical to" line when the score is below `low`
(`LowDistortionThreshold`), otherwise an "is similar to" line when it is
below `high` (`HighDistortionThreshold`), otherwise nothing.  The two
thresholds are constants of `FingerprintStore.hpp`, which is not under
`src/`; following the spec they are parameters here.  Returns the printed
stdout lines in order. -/
def FindMatchesForImage (B : Backend) (low high : ℚ) :
    MImage → String → Int → List (MImage × String) → List String
  | _, _, _, [] => []
  | image, filename, fuzzFactor, fp :: rest =>
    let image := image.colorFuzz fuzzFactor
    let distortion := B.compare image fp.1
    let c := fp.1.attributeGet "comment"
    let fingerprintName := if c = "" then fp.2 else c
    (if distortion < low then
      [filename ++ "\tis identical to\t" ++ fingerprintName ++ "\n"]
     else if distortion < high then
      [filename ++ "\tis similar to\t" ++ fingerprintName ++ "\n"]
     else []) ++ FindMatchesForImage B low high image filename fuzzFactor rest

/-- The destination path `Generate` writes to
(FingerprintStore.cpp:206-213): `boost::filesystem::path(dest)` followed by
`operator+=` with the new filename — `operator+=` is concatenation, no
directory separator is inserted. -/
def destinationPath (dstDirectory entry : String) : String :=
  dstDirectory ++ replaceExtension (pathFilename entry) ".tif"

/-- The normalized fingerprint image `Generate` builds from a decoded source
image (FingerprintStore.cpp:216-222): floating-point quantum define, depth
32, no compression, resize to `FingerprintSpec`, `comment` attribute set to
the source path. -/
def GeneratedFingerprint (img : MImage) (entry : String) : MImage :=
  ((((img.defineValue "quantum" "format" "floating-point").depthSet 32).compressTypeSet
      CompressionType.NoCompression).resize FingerprintSpec).attributeSet "comment" entry

/-- The body of `FingerprintStore::Generate`'s loop for one supported entry
(FingerprintStore.cpp:203-234): print the progress line, then inside a
try/catch read, normalize and write the fingerprint; any exception is
reported on stderr as a "skipping" line and the loop continues. -/
def GenerateEntry (B : Backend) (dstDirectory entry : String) : List Event :=
  Event.out (entry ++ "\n") ::
  Event.readCall entry ::
  match B.readImage entry with
  | .error e => [Event.err ("skipping " ++ entry ++ " " ++ e ++ "\n")]
  | .ok image =>
    let outputFilename := destinationPath dstDirectory entry
    let image := GeneratedFingerprint image entry
    match B.writeImage outputFilename image with
    | some e => [Event.err ("skipping " ++ entry ++ " " ++ e ++ "\n")]
    | none => [Event.write outputFilename image]

/-- `FingerprintStore::Generate`'s consumption loop
(FingerprintStore.cpp:178-236) over the entries the walker delivers to this
worker: unsupported paths are discarded by the `IsSupportedImage` filter
before any handling. -/
def Generate (B : Backend) (isSupportedImage : String → Bool)
    (dstDirectory : String) : List String → List Event
  | [] => []
  | entry :: rest =>
    (if isSupportedImage entry then GenerateEntry B dstDirectory entry else []) ++
      Generate B isSupportedImage dstDirectory rest

/-- The body of `FingerprintStore::FindDuplicates`'s loop for one supported
entry (FingerprintStore.cpp:160-174): read the candidate (an unreadable file
is skipped silently — the catch block produces no output), normalize it the
same way as `Generate`'s resize path, and run `FindMatchesForImage`. -/
def FindDuplicatesEntry (B : Backend) (low high : ℚ) (fuzzFactor : Int)
    (fingerprints : List (MImage × String)) (entry : String) : List Event :=
  Event.readCall entry ::
  match B.readImage entry with
  | .error _ => []
  | .ok image =>
    let image := (image.compressTypeSet CompressionType.NoCompression).resize FingerprintSpec
    (FindMatchesForImage B low high image entry fuzzFactor fingerprints).map Event.out

/-- `FingerprintStore::FindDuplicates`'s consumption loop
(FingerprintStore.cpp:138-176) over the entries delivered to this worker. -/
def FindDuplicates (B : Backend) (isSupportedImage : String → Bool)
    (low high : ℚ) (fuzzFactor : Int) (fingerprints : List (MImage × String)) :
    List String → List Event
  | [] => []
  | entry :: rest =>
    (if isSupportedImage entry then
      FindDuplicatesEntry B low high fuzzFactor fingerprints entry
     else []) ++
      FindDuplicates B isSupportedImage low high fuzzFactor fingerprints rest

/-- A parsed `std::tm` restricted to the six fields the code's format string
touches.  `year` holds the calendar year: `get_time` stores `year - 1900`
into `tm_year` and `put_time`'s `%Y` prints `tm_year + 1900` back, so the
composition used by the code is the identity on the calendar year. -/
structure TmFields where
  year : Nat
  mon : Nat
  day : Nat
  hour : Nat
  minute : Nat
  sec : Nat
deriving DecidableEq, Repr

/-- Read up to `width` decimal digit characters, accumulating their value;
stops at the first non-digit or when the width is exhausted (the numeric
field extraction performed by `std::get_time` for a conversion of the given
field width). -/
def takeDigitsAux : Nat → List Char → Nat → Nat × List Char
  | 0, cs, acc => (acc, cs)
  | _ + 1, [], acc => (acc, [])
  | w + 1, c :: cs, acc =>
    if c.isDigit then takeDigitsAux w cs (acc * 10 + (c.toNat - 48))
    else (acc, c :: cs)

/-- One numeric field of `std::get_time`: requires at least one digit, reads
up to `width` digits, and fails when the value is outside `[lo, hi]` (the
range checks of the standard `%Y/%m/%d/%H/%M/%S` conversions). -/
def extractNum (lo hi width : Nat) (cs : List Char) : Option (Nat × List Char) :=
  match cs with
  | [] => none
  | c :: _ =>
    if c.isDigit then
      let r := takeDigitsAux width cs 0
      if lo ≤ r.1 ∧ r.1 ≤ hi then some r else none
    else none

/-- A literal (non-whitespace) character of the `get_time` format string:
must match the next input character exactly. -/
def expectChar (c : Char) : List Char → Option (List Char)
  | [] => none
  | c' :: cs => if c' = c then some cs else none

/-- `std::get_time(&t, "%Y:%m:%d %H:%M:%S")` on an input string: `%Y` reads
up to 4 digits in `[0, 9999]`, `%m` up to 2 in `[1, 12]`, `%d` up to 2 in
`[1, 31]`, `%H`/`%M`/`%S` up to 2 in `[0, 23]`/`[0, 59]`/`[0, 61]`; a
whitespace character in the format matches any run of whitespace (including
none).  Returns `none` when extraction fails. -/
def parseExifTimestamp (timestamp : String) : Option TmFields := do
  let cs := timestamp.data
  let (y, cs) ← extractNum 0 9999 4 cs
  let cs ← expectChar ':' cs
  let (mon, cs) ← extractNum 1 12 2 cs
  let cs ← expectChar ':' cs
  let (day, cs) ← extractNum 1 31 2 cs
  let cs := cs.dropWhile (fun c => c.isWhitespace)
  let (hour, cs) ← extractNum 0 23 2 cs
  let cs ← expectChar ':' cs
  let (minute, cs) ← extractNum 0 59 2 cs
  let cs ← expectChar ':' cs
  let (sec, _) ← extractNum 0 61 2 cs
  pure ⟨y, mon, day, hour, minute, sec⟩

/-- The decimal digit character for `n % 10`. -/
def digitChar (n : Nat) : Char := Char.ofNat (48 + n % 10)

/-- A two-digit zero-padded decimal rendering (the `%m/%d/%H/%M/%S` output
conversions of `std::put_time`), exact for values below 100. -/
def pad2 (n : Nat) : String := ⟨[digitChar (n / 10), digitChar n]⟩

/-- A four-digit zero-padded decimal rendering (the `%Y` output conversion
of `std::put_time`), exact for the four-digit years of the EXIF `YYYY`
format. -/
def pad4 (n : Nat) : String :=
  ⟨[digitChar (n / 1000), digitChar (n / 100), digitChar (n / 10), digitChar n]⟩

/-- `std::put_time(&t, "%Y-%m-%d %H:%M:%S")`. -/
def putTimeIso (t : TmFields) : String :=
  pad4 t.year ++ "-" ++ pad2 t.mon ++ "-" ++ pad2 t.day ++ " " ++
    pad2 t.hour ++ ":" ++ pad2 t.minute ++ ":" ++ pad2 t.sec

/-- An EXIF `DateTimeOriginal` value `YYYY:MM:DD HH:MM:SS` built from its
six fields. -/
def exifFormat (t : TmFields) : String :=
  pad4 t.year ++ ":" ++ pad2 t.mon ++ ":" ++ pad2 t.day ++ " " ++
    pad2 t.hour ++ ":" ++ pad2 t.minute ++ ":" ++ pad2 t.sec

/-- `FingerprintStore::ConvertExifTimestamp` (FingerprintStore.cpp:284-296):
parse with `get_time("%Y:%m:%d %H:%M:%S")`, reformat with
`put_time("%Y-%m-%d %H:%M:%S")`.  When extraction fails the C++ code formats
an indeterminate `std::tm` (indeterminate output); that branch is modelled
as returning the input and is unreachable in every theorem below. -/
def ConvertExifTimestamp (timestamp : String) : String :=
  match parseExifTimestamp timestamp with
  | some t => putTimeIso t
  | none => timestamp

/-- The body of `FingerprintStore::ExtractMetadata`'s loop for one supported
entry (FingerprintStore.cpp:260-280): read the image and, when the
`exif:DateTimeOriginal` attribute is non-empty, print the converted
timestamp line; exceptions are swallowed with no output. -/
def ExtractMetadataEntry (B : Backend) (entry : String) : List Event :=
  Event.readCall entry ::
  match B.readImage entry with
  | .error _ => []
  | .ok image =>
    let createdAt := image.attributeGet "exif:DateTimeOriginal"
    if createdAt ≠ "" then
      [Event.out (entry ++ "\t" ++ ConvertExifTimestamp createdAt ++ "\n")]
    else []

/-- `FingerprintStore::ExtractMetadata`'s consumption loop
(FingerprintStore.cpp:238-282) over the entries delivered to this worker. -/
def ExtractMetadata (B : Backend) (isSupportedImage : String → Bool) :
    List String → List Event
  | [] => []
  | entry :: rest =>
    (if isSupportedImage entry then ExtractMetadataEntry B entry else []) ++
      ExtractMetadata B isSupportedImage rest

/-- `FingerprintStore::Load`'s consumption loop (FingerprintStore.cpp:22-51)
carrying the running `loadedCount`: supported entries are read with no
try/catch, so a backend exception propagates out (`.error`), aborting the
load; on success the fingerprint is stored as the image paired with the
file's stem and a progress count line is printed. -/
def LoadAux (B : Backend) (isSupportedImage : String → Bool) :
    List String → Nat → Except String (List (MImage × String) × List Event)
  | [], _ => .ok ([], [])
  | entry :: rest, loadedCount =>
    if isSupportedImage entry then
      match B.readImage entry with
      | .error e => .error e
      | .ok image =>
        match LoadAux B isSupportedImage rest (loadedCount + 1) with
        | .error e => .error e
        | .ok (fps, evs) =>
          .ok ((image, pathStem entry) :: fps,
            Event.readCall entry ::
              Event.out ("\r" ++ toString (loadedCount + 1)) :: evs)
    else LoadAux B isSupportedImage rest loadedCount

/-- `FingerprintStore::Load` (FingerprintStore.cpp:14-56): announce, run the
loop from count 0, and print the final DONE line on success. -/
def Load (B : Backend) (isSupportedImage : String → Bool) (entries : List String) :
    Except String (List (MImage × String) × List Event) :=
  match LoadAux B isSupportedImage entries 0 with
  | .error e => .error e
  | .ok (fps, evs) =>
    .ok (fps, Event.out "Loading fingerprints into memory...\n" :: evs ++ [Event.out "\rDONE\n"])

/-- The command-line options of `main` (main.cpp:40-72) after `getopt`
processing. -/
structure CmdOptions where
  metadataMode : Bool
  generateMode : Bool
  findDuplicateMode : Bool
  srcDirectory : String
  dstDirectory : String
  numThreads : Int
deriving DecidableEq, Repr

/-- How a run of `main` ends its startup phase: `usageExit` is `usage()`
(prints help to stderr, `exit(1)`); `invalidDirExit` is the `return 1` after
a failed directory check (which printed `"<dir>" is not a directory`); `run`
means startup validation passed and the selected mode's work begins. -/
inductive StartupOutcome where
  | usageExit
  | invalidDirExit
  | run (generateMode findDuplicateMode metadataMode : Bool)
deriving DecidableEq, Repr

/-- `areDirectoriesValid` (main.cpp:23-38): both paths must be existing
directories (`isDirectory` models `boost::filesystem::is_directory`); a
failing check prints the offending path to stderr and returns false. -/
def areDirectoriesValid (isDirectory : String → Bool) (srcDirectory dstDirectory : String) : Bool :=
  isDirectory srcDirectory && isDirectory dstDirectory

/-- The startup validation sequence of `main` (main.cpp:74-103): exactly one
mode; generate/find-duplicate modes need both directory arguments; thread
count at least 1; directory existence is checked only when not in metadata
mode; then the selected mode runs. -/
def mainStartup (isDirectory : String → Bool) (o : CmdOptions) : StartupOutcome :=
  if o.generateMode.toNat + o.findDuplicateMode.toNat + o.metadataMode.toNat ≠ 1 then
    .usageExit
  else if (o.generateMode || o.findDuplicateMode) &&
      (o.srcDirectory = "" || o.dstDirectory = "") then
    .usageExit
  else if o.numThreads < 1 then
    .usageExit
  else if !o.metadataMode &&
      !areDirectoriesValid isDirectory o.srcDirectory o.dstDirectory then
    .invalidDirExit
  else
    .run o.generateMode o.findDuplicateMode o.metadataMode

/-- The spec's classification policy for one (probe image, fingerprint)
pair: the formatted output lines it mandates as a function of the distortion
score and the two thresholds, for comparison with the loop in
`FindMatchesForImage`. -/
def classificationPolicy (B : Backend) (low high : ℚ) (probe : MImage)
    (filename : String) (fp : MImage × String) : List String :=
  let distortion := B.compare probe fp.1
  let c := fp.1.attributeGet "comment"
  let fingerprintName := if c = "" then fp.2 else c
  if distortion < low then
    [filename ++ "\tis identical to\t" ++ fingerprintName ++ "\n"]
  else if distortion < high then
    [filename ++ "\tis similar to\t" ++ fingerprintName ++ "\n"]
  else []

theorem MImage.colorFuzz_colorFuzz (img : MImage) (f : Int) :
    (img.colorFuzz f).colorFuzz f = img.colorFuzz f := rfl

/-- The match loop threads the probe image through iterations (each one
re-applies `colorFuzz`), but since `colorFuzz` is idempotent the output is
the concatenation of an independent per-fingerprint classification. -/
theorem findMatchesForImage_eq_flatMap (B : Backend) (low high : ℚ)
    (image : MImage) (filename : String) (fuzzFactor : Int)
    (fps : List (MImage × String)) :
    FindMatchesForImage B low high image filename fuzzFactor fps =
      fps.flatMap (classificationPolicy B low high (image.colorFuzz fuzzFactor) filename) := by
  induction fps generalizing image with
  | nil => rfl
  | cons fp rest ih =>
    rw [List.flatMap_cons]
    show classificationPolicy B low high (image.colorFuzz fuzzFactor) filename fp ++
        FindMatchesForImage B low high (image.colorFuzz fuzzFactor) filename fuzzFactor rest = _
    rw [ih (image.colorFuzz fuzzFactor), MImage.colorFuzz_colorFuzz]

/-- C1: for every fingerprint in the store, `FindMatchesForImage`
classifies the (probe, fingerprint) pair by its distortion score
independently of all other fingerprints — the printed output is the
concatenation of a per-fingerprint classification: below the low threshold
an "is identical to" line, at least low and below high an "is similar to"
line, at or above high nothing; hence one candidate may produce match lines
for several fingerprints, and (the thresholds being positive and ordered) a
score of 0 always classifies as Identical. -/
theorem C1_findMatches_classifies_each_fingerprint_independently
    (B : Backend) (low high : ℚ) (image : MImage) (filename : String)
    (fuzzFactor : Int) (fps : List (MImage × String))
    (hlow : 0 < low) (hord : low ≤ high) :
    (FindMatchesForImage B low high image filename fuzzFactor fps =
      fps.flatMap (classificationPolicy B low high (image.colorFuzz fuzzFactor) filename)) ∧
    (∀ fp ∈ fps,
      (B.compare (image.colorFuzz fuzzFactor) fp.1 < low →
        classificationPolicy B low high (image.colorFuzz fuzzFactor) filename fp =
          [filename ++ "\tis identical to\t" ++
            (if fp.1.attributeGet "comment" = "" then fp.2 else fp.1.attributeGet "comment") ++ "\n"]) ∧
      (low ≤ B.compare (image.colorFuzz fuzzFactor) fp.1 →
        B.compare (image.colorFuzz fuzzFactor) fp.1 < high →
        classificationPolicy B low high (image.colorFuzz fuzzFactor) filename fp =
          [filename ++ "\tis similar to\t" ++
            (if fp.1.attributeGet "comment" = "" then fp.2 else fp.1.attributeGet "comment") ++ "\n"]) ∧
      (high ≤ B.compare (image.colorFuzz fuzzFactor) fp.1 →
        classificationPolicy B low high (image.colorFuzz fuzzFactor) filename fp = []) ∧
      (B.compare (image.colorFuzz fuzzFactor) fp.1 = 0 →
        classificationPolicy B low high (image.colorFuzz fuzzFactor) filename fp =
          [filename ++ "\tis identical to\t" ++
            (if fp.1.attributeGet "comment" = "" then fp.2 else fp.1.attributeGet "comment") ++ "\n"])) := by
  refine ⟨findMatchesForImage_eq_flatMap B low high image filename fuzzFactor fps, ?_⟩
  intro fp _
  refine ⟨?_, ?_, ?_, ?_⟩
  · intro h
    simp only [classificationPolicy, if_pos h]
  · intro h1 h2
    simp only [classificationPolicy, if_neg (not_lt.mpr h1), if_pos h2]
  · intro h
    have h1 : ¬ B.compare (image.colorFuzz fuzzFactor) fp.1 < low :=
      not_lt.mpr (le_trans hord h)
    have h2 : ¬ B.compare (image.colorFuzz fuzzFactor) fp.1 < high := not_lt.mpr h
    simp only [classificationPolicy, if_neg h1, if_neg h2]
  · intro h
    simp only [classificationPolicy, h, if_pos hlow]

/-- Fixture: a minimal decoded image whose content identifier is the path it
was read from. -/
def sampleDecoded (p : String) : MImage :=
  ⟨p, none, 8, CompressionType.UndefinedCompression, 0, [], []⟩

/-- Fixture: a backend on which every read and write succeeds and every
comparison scores 0. -/
def sampleBackendZero : Backend :=
  ⟨fun p => .ok (sampleDecoded p), fun _ _ => none, fun _ _ => 0⟩

theorem C1_findMatches_classifies_each_fingerprint_independently_witness :
    (0 : ℚ) < 1 ∧ (1 : ℚ) ≤ 2 ∧
    FindMatchesForImage sampleBackendZero 1 2 (sampleDecoded "C/dup.jpg") "C/dup.jpg" 0
        [(sampleDecoded "B/photo1.tif", "photo1"), (sampleDecoded "B/photo2.tif", "photo2")] =
      ["C/dup.jpg\tis identical to\tphoto1\n", "C/dup.jpg\tis identical to\tphoto2\n"] :=
  ⟨by norm_num, by norm_num, by
    have h := C1_findMatches_classifies_each_fingerprint_independently sampleBackendZero 1 2
      (sampleDecoded "C/dup.jpg") "C/dup.jpg" 0
      [(sampleDecoded "B/photo1.tif", "photo1"), (sampleDecoded "B/photo2.tif", "photo2")]
      (by norm_num) (by norm_num)
    rw [h.1]
    rfl⟩

/-- Every fingerprint `Load` stores pairs an image read from some supported
entry with that entry's on-disk stem. -/
theorem LoadAux_ok_mem (B : Backend) (supported : String → Bool) :
    ∀ (entries : List String) (count : Nat) (fps : List (MImage × String)) (evs : List Event),
      LoadAux B supported entries count = .ok (fps, evs) →
      ∀ fp ∈ fps, ∃ e ∈ entries, supported e = true ∧
        B.readImage e = .ok fp.1 ∧ fp.2 = pathStem e := by
  intro entries
  induction entries with
  | nil =>
    intro count fps evs h fp hfp
    simp only [LoadAux, Except.ok.injEq, Prod.mk.injEq] at h
    rw [← h.1] at hfp
    simp at hfp
  | cons p ps ih =>
    intro count fps evs h fp hfp
    by_cases hs : supported p = true
    · rw [LoadAux, if_pos hs] at h
      cases hr : B.readImage p with
      | error e => rw [hr] at h; simp at h
      | ok img =>
        rw [hr] at h
        cases hrec : LoadAux B supported ps (count + 1) with
        | error e => rw [hrec] at h; simp at h
        | ok pr =>
          rw [hrec] at h
          simp only [Except.ok.injEq, Prod.mk.injEq] at h
          rw [← h.1] at hfp
          rcases List.mem_cons.mp hfp with hfp | hfp
          · exact ⟨p, List.mem_cons_self p ps, hs, by rw [hfp, hr], by rw [hfp]⟩
          · obtain ⟨e, he, hse, hre, hste⟩ := ih (count + 1) pr.1 pr.2 (by rw [hrec]) fp hfp
            exact ⟨e, List.mem_cons_of_mem p he, hse, hre, hste⟩
    · rw [LoadAux, if_neg hs] at h
      obtain ⟨e, he, hse, hre, hste⟩ := ih count fps evs h fp hfp
      exact ⟨e, List.mem_cons_of_mem p he, hse, hre, hste⟩

/-- A line emitted for one fingerprint is one of the two match forms, with
the name resolved from the comment attribute or the stored stem. -/
theorem mem_classificationPolicy (B : Backend) (low high : ℚ) (probe : MImage)
    (filename : String) (fp : MImage × String) (line : String)
    (h : line ∈ classificationPolicy B low high probe filename fp) :
    line = filename ++ "\tis identical to\t" ++
        (if fp.1.attributeGet "comment" = "" then fp.2 else fp.1.attributeGet "comment") ++ "\n" ∨
      line = filename ++ "\tis similar to\t" ++
        (if fp.1.attributeGet "comment" = "" then fp.2 else fp.1.attributeGet "comment") ++ "\n" := by
  simp only [classificationPolicy] at h
  split_ifs at h <;> simp_all

/-- Every stdout line of a `FindDuplicates` run arises from
`FindMatchesForImage` on some supported candidate that was read
successfully. -/
theorem outLines_findDuplicates (B : Backend) (supported : String → Bool)
    (low high : ℚ) (fuzzFactor : Int) (fps : List (MImage × String)) :
    ∀ (candidates : List String) (line : String),
      line ∈ outLines (FindDuplicates B supported low high fuzzFactor fps candidates) →
      ∃ c ∈ candidates, supported c = true ∧ ∃ img, B.readImage c = .ok img ∧
        line ∈ FindMatchesForImage B low high
          ((img.compressTypeSet CompressionType.NoCompression).resize FingerprintSpec)
          c fuzzFactor fps := by
  intro candidates
  induction candidates with
  | nil => intro line h; simp [FindDuplicates, outLines] at h
  | cons c cs ih =>
    intro line h
    rw [FindDuplicates] at h
    unfold outLines at h
    rw [List.filterMap_append] at h
    rcases List.mem_append.mp h with h | h
    · by_cases hs : supported c = true
      · rw [if_pos hs] at h
        unfold FindDuplicatesEntry at h
        cases hr : B.readImage c with
        | error e => rw [hr] at h; simp at h
        | ok img =>
          rw [hr] at h
          simp only [List.filterMap_cons] at h
          have : line ∈ FindMatchesForImage B low high
              ((img.compressTypeSet CompressionType.NoCompression).resize FingerprintSpec)
              c fuzzFactor fps := by
            simpa [List.mem_filterMap] using h
          exact ⟨c, List.mem_cons_self c cs, hs, img, hr, this⟩
      · rw [if_neg hs] at h
        simp at h
    · obtain ⟨c', hc', hs', img, hr, hm⟩ := ih line h
      exact ⟨c', List.mem_cons_of_mem c hc', hs', img, hr, hm⟩

/-- C3: for every match line printed by `FindDuplicates`, the name on the
right-hand side is the fingerprint's stored `comment` attribute (the
original source path) whenever that attribute is non-empty, and otherwise
the fingerprint file's on-disk stem as recorded at load time. -/
theorem C3_match_name_prefers_comment_over_stem
    (B : Backend) (supported : String → Bool) (low high : ℚ) (fuzzFactor : Int)
    (fpEntries candidates : List String) (fps : List (MImage × String)) (evs : List Event)
    (hload : Load B supported fpEntries = .ok (fps, evs)) :
    ∀ line ∈ outLines (FindDuplicates B supported low high fuzzFactor fps candidates),
      ∃ c ∈ candidates, ∃ e ∈ fpEntries, ∃ img, supported e = true ∧
        B.readImage e = .ok img ∧
        (line = c ++ "\tis identical to\t" ++
            (if img.attributeGet "comment" = "" then pathStem e else img.attributeGet "comment") ++ "\n" ∨
          line = c ++ "\tis similar to\t" ++
            (if img.attributeGet "comment" = "" then pathStem e else img.attributeGet "comment") ++ "\n") := by
  intro line hline
  obtain ⟨c, hc, hsc, probe, hrc, hm⟩ :=
    outLines_findDuplicates B supported low high fuzzFactor fps candidates line hline
  rw [findMatchesForImage_eq_flatMap] at hm
  obtain ⟨fp, hfp, hmem⟩ := List.mem_flatMap.mp hm
  have hforms := mem_classificationPolicy B low high _ c fp line hmem
  unfold Load at hload
  cases hla : LoadAux B supported fpEntries 0 with
  | error e => rw [hla] at hload; simp at hload
  | ok pr =>
    rw [hla] at hload
    simp only [Except.ok.injEq, Prod.mk.injEq] at hload
    obtain ⟨e, he, hse, hre, hste⟩ :=
      LoadAux_ok_mem B supported fpEntries 0 pr.1 pr.2 (by rw [hla]) fp (by rw [hload.1]; exact hfp)
    refine ⟨c, hc, e, he, fp.1, hse, hre, ?_⟩
    rw [← hste]
    exact hforms

/-- Fixture: a backend whose reads succeed and tag the decoded image with a
`comment` attribute naming the original source path, and whose comparisons
all score 0. -/
def sampleBackendComment : Backend :=
  ⟨fun p => .ok ((sampleDecoded p).attributeSet "comment" "A/photo1.jpg"),
   fun _ _ => none, fun _ _ => 0⟩

theorem C3_match_name_prefers_comment_over_stem_witness :
    ∃ c ∈ ["C/dup.jpg"], ∃ e ∈ ["B/photo1.tif"], ∃ img,
      (fun (_ : String) => true) e = true ∧
      sampleBackendComment.readImage e = .ok img ∧
      ("C/dup.jpg\tis identical to\tA/photo1.jpg\n" = c ++ "\tis identical to\t" ++
          (if img.attributeGet "comment" = "" then pathStem e else img.attributeGet "comment") ++ "\n" ∨
        "C/dup.jpg\tis identical to\tA/photo1.jpg\n" = c ++ "\tis similar to\t" ++
          (if img.attributeGet "comment" = "" then pathStem e else img.attributeGet "comment") ++ "\n") :=
  C3_match_name_prefers_comment_over_stem sampleBackendComment (fun _ => true) 1 2 0
    ["B/photo1.tif"] ["C/dup.jpg"]
    [((sampleDecoded "B/photo1.tif").attributeSet "comment" "A/photo1.jpg", "photo1")]
    [Event.out "Loading fingerprints into memory...\n", Event.readCall "B/photo1.tif",
      Event.out "\r1", Event.out "\rDONE\n"]
    (by rfl) "C/dup.jpg\tis identical to\tA/photo1.jpg\n" (by decide)

/-- Each entry of a `Generate` run contributes its own events: the loop's
trace over a concatenation of delivered entries is the concatenation of the
traces, so what happens on one entry cannot affect any other. -/
theorem Generate_append (B : Backend) (supported : String → Bool) (dst : String) :
    ∀ xs ys : List String,
      Generate B supported dst (xs ++ ys) =
        Generate B supported dst xs ++ Generate B supported dst ys := by
  intro xs ys
  induction xs with
  | nil => simp [Generate]
  | cons x xs ih => simp [Generate, ih]

/-- The `FindDuplicates` loop distributes over concatenation of delivered
entries. -/
theorem FindDuplicates_append (B : Backend) (supported : String → Bool)
    (low high : ℚ) (fuzzFactor : Int) (fps : List (MImage × String)) :
    ∀ xs ys : List String,
      FindDuplicates B supported low high fuzzFactor fps (xs ++ ys) =
        FindDuplicates B supported low high fuzzFactor fps xs ++
          FindDuplicates B supported low high fuzzFactor fps ys := by
  intro xs ys
  induction xs with
  | nil => simp [FindDuplicates]
  | cons x xs ih => simp [FindDuplicates, ih]

/-- The `ExtractMetadata` loop distributes over concatenation of delivered
entries. -/
theorem ExtractMetadata_append (B : Backend) (supported : String → Bool) :
    ∀ xs ys : List String,
      ExtractMetadata B supported (xs ++ ys) =
        ExtractMetadata B supported xs ++ ExtractMetadata B supported ys := by
  intro xs ys
  induction xs with
  | nil => simp [ExtractMetadata]
  | cons x xs ih => simp [ExtractMetadata, ih]

/-- C4: in Generate mode, for every candidate, the progress line with the
source path is the first event, emitted before the read is attempted; a
backend failure while reading or while writing is caught inside the loop and
reported on stderr as a "skipping" line with the path and the reason, with
no file written for that entry; and the loop's trace distributes over
concatenation of the delivered entries, so a failure on one file never
terminates the batch nor affects the processing of any other file. -/
theorem C4_generate_progress_and_error_isolation
    (B : Backend) (supported : String → Bool) (dst : String) :
    (∀ entry, ∃ rest, GenerateEntry B dst entry =
      Event.out (entry ++ "\n") :: Event.readCall entry :: rest) ∧
    (∀ entry e, B.readImage entry = .error e →
      GenerateEntry B dst entry =
        [Event.out (entry ++ "\n"), Event.readCall entry,
          Event.err ("skipping " ++ entry ++ " " ++ e ++ "\n")]) ∧
    (∀ entry img e, B.readImage entry = .ok img →
      B.writeImage (destinationPath dst entry) (GeneratedFingerprint img entry) = some e →
      GenerateEntry B dst entry =
        [Event.out (entry ++ "\n"), Event.readCall entry,
          Event.err ("skipping " ++ entry ++ " " ++ e ++ "\n")]) ∧
    (∀ xs ys, Generate B supported dst (xs ++ ys) =
      Generate B supported dst xs ++ Generate B supported dst ys) := by
  refine ⟨?_, ?_, ?_, Generate_append B supported dst⟩
  · intro entry
    unfold GenerateEntry
    cases B.readImage entry with
    | error e => exact ⟨_, rfl⟩
    | ok img => exact ⟨_, rfl⟩
  · intro entry e h
    unfold GenerateEntry
    rw [h]
  · intro entry img e hr hw
    unfold GenerateEntry
    rw [hr]
    simp only [hw]

/-- Fixture: a backend on which every read fails. -/
def sampleBackendUnreadable : Backend :=
  ⟨fun _ => .error "Magick: Corrupt image", fun _ _ => none, fun _ _ => 0⟩

theorem C4_generate_progress_and_error_isolation_witness :
    sampleBackendUnreadable.readImage "A/broken.jpg" = .error "Magick: Corrupt image" ∧
    GenerateEntry sampleBackendUnreadable "B/" "A/broken.jpg" =
      [Event.out "A/broken.jpg\n", Event.readCall "A/broken.jpg",
        Event.err "skipping A/broken.jpg Magick: Corrupt image\n"] :=
  ⟨rfl, (C4_generate_progress_and_error_isolation sampleBackendUnreadable (fun _ => true)
      "B/").2.1 "A/broken.jpg" "Magick: Corrupt image" rfl⟩

/-- C7: a delivered path that is not a supported image is discarded by every
mode's consumption loop (Generate, FindDuplicates, ExtractMetadata, and the
Load preload) before the mode-specific handler runs: removing it from the
delivered entries leaves each loop's result unchanged, so it produces no
output line, no written file, and no backend call. -/
theorem C7_unsupported_paths_never_reach_handlers
    (B : Backend) (supported : String → Bool) (dst : String) (low high : ℚ)
    (fuzzFactor : Int) (fps : List (MImage × String)) (pre post : List String)
    (entry : String) (h : supported entry = false) :
    Generate B supported dst (pre ++ entry :: post) =
      Generate B supported dst (pre ++ post) ∧
    FindDuplicates B supported low high fuzzFactor fps (pre ++ entry :: post) =
      FindDuplicates B supported low high fuzzFactor fps (pre ++ post) ∧
    ExtractMetadata B supported (pre ++ entry :: post) =
      ExtractMetadata B supported (pre ++ post) ∧
    ∀ count, LoadAux B supported (pre ++ entry :: post) count =
      LoadAux B supported (pre ++ post) count := by
  refine ⟨?_, ?_, ?_, ?_⟩
  · rw [Generate_append, Generate_append]
    have h2 : Generate B supported dst (entry :: post) = Generate B supported dst post := by
      simp [Generate, h]
    rw [h2]
  · rw [FindDuplicates_append, FindDuplicates_append]
    have h2 : FindDuplicates B supported low high fuzzFactor fps (entry :: post) =
        FindDuplicates B supported low high fuzzFactor fps post := by
      simp [FindDuplicates, h]
    rw [h2]
  · rw [ExtractMetadata_append, ExtractMetadata_append]
    have h2 : ExtractMetadata B supported (entry :: post) = ExtractMetadata B supported post := by
      simp [ExtractMetadata, h]
    rw [h2]
  · induction pre with
    | nil =>
      intro count
      simp only [List.nil_append, LoadAux, h]
      simp
    | cons p ps ih =>
      intro count
      by_cases hs : supported p = true
      · rw [List.cons_append, LoadAux, if_pos hs, List.cons_append, LoadAux, if_pos hs]
        cases B.readImage p with
        | error e => rfl
        | ok img => rw [ih (count + 1)]
      · rw [List.cons_append, LoadAux, if_neg hs, List.cons_append, LoadAux, if_neg hs]
        exact ih count

theorem C7_unsupported_paths_never_reach_handlers_witness :
    (fun (_ : String) => false) "A/notes.txt" = false ∧
    Generate sampleBackendZero (fun _ => false) "B/" ["A/notes.txt"] = [] :=
  ⟨rfl, by
    have h := C7_unsupported_paths_never_reach_handlers sampleBackendZero (fun _ => false)
      "B/" 1 2 0 [] [] [] "A/notes.txt" rfl
    simp [Generate] at h
    exact h.1⟩

/-- C5 counterexample: the claim says a failed candidate read is logged, but
the catch block in `FindDuplicates` (FingerprintStore.cpp:165-168) produces
no output at all: on a concrete run whose only candidate is unreadable, the
whole trace is the bare read call — no stderr line and no stdout line
exists anywhere in the run. -/
theorem C5_unreadable_candidate_not_logged_counterexample :
    sampleBackendUnreadable.readImage "C/broken.jpg" = .error "Magick: Corrupt image" ∧
    FindDuplicates sampleBackendUnreadable (fun _ => true) 1 2 0
        [(sampleDecoded "B/photo1.tif", "photo1")] ["C/broken.jpg"] =
      [Event.readCall "C/broken.jpg"] ∧
    errLines (FindDuplicates sampleBackendUnreadable (fun _ => true) 1 2 0
        [(sampleDecoded "B/photo1.tif", "photo1")] ["C/broken.jpg"]) = [] ∧
    outLines (FindDuplicates sampleBackendUnreadable (fun _ => true) 1 2 0
        [(sampleDecoded "B/photo1.tif", "photo1")] ["C/broken.jpg"]) = [] :=
  ⟨rfl, rfl, rfl, rfl⟩

/-- C5 (amended): in FindDuplicates mode, a candidate whose image read
fails is skipped silently — with no log output of any kind — without
aborting the run: its whole contribution to the trace is the read call (in
particular no comparison output), and every other candidate is still
processed exactly as it would have been. -/
theorem C5_unreadable_candidate_skipped_silently
    (B : Backend) (supported : String → Bool) (low high : ℚ) (fuzzFactor : Int)
    (fps : List (MImage × String)) (pre post : List String) (c e : String)
    (hs : supported c = true) (hr : B.readImage c = .error e) :
    FindDuplicatesEntry B low high fuzzFactor fps c = [Event.readCall c] ∧
    errLines (FindDuplicatesEntry B low high fuzzFactor fps c) = [] ∧
    outLines (FindDuplicatesEntry B low high fuzzFactor fps c) = [] ∧
    FindDuplicates B supported low high fuzzFactor fps (pre ++ c :: post) =
      FindDuplicates B supported low high fuzzFactor fps pre ++
        [Event.readCall c] ++ FindDuplicates B supported low high fuzzFactor fps post := by
  have hentry : FindDuplicatesEntry B low high fuzzFactor fps c = [Event.readCall c] := by
    unfold FindDuplicatesEntry
    rw [hr]
  refine ⟨hentry, by rw [hentry]; rfl, by rw [hentry]; rfl, ?_⟩
  rw [FindDuplicates_append]
  have h2 : FindDuplicates B supported low high fuzzFactor fps (c :: post) =
      [Event.readCall c] ++ FindDuplicates B supported low high fuzzFactor fps post := by
    rw [FindDuplicates, if_pos hs, hentry]
  rw [h2, List.append_assoc]

theorem C5_unreadable_candidate_skipped_silently_witness :
    (fun (_ : String) => true) "C/broken.jpg" = true ∧
    sampleBackendUnreadable.readImage "C/broken.jpg" = .error "Magick: Corrupt image" ∧
    FindDuplicates sampleBackendUnreadable (fun _ => true) 1 2 0 [] ["C/ok.jpg", "C/broken.jpg"] =
      FindDuplicates sampleBackendUnreadable (fun _ => true) 1 2 0 [] ["C/ok.jpg"] ++
        [Event.readCall "C/broken.jpg"] ++
        FindDuplicates sampleBackendUnreadable (fun _ => true) 1 2 0 [] [] :=
  ⟨rfl, rfl,
    (C5_unreadable_candidate_skipped_silently sampleBackendUnreadable (fun _ => true) 1 2 0 []
      ["C/ok.jpg"] [] "C/broken.jpg" "Magick: Corrupt image" rfl rfl).2.2.2⟩

theorem digitChar_isDigit (n : Nat) : (digitChar n).isDigit = true := by
  unfold digitChar
  have h : n % 10 < 10 := Nat.mod_lt _ (by norm_num)
  generalize n % 10 = k at h
  interval_cases k <;> decide

theorem digitChar_toNat (n : Nat) : (digitChar n).toNat = 48 + n % 10 := by
  unfold digitChar
  have h : n % 10 < 10 := Nat.mod_lt _ (by norm_num)
  generalize n % 10 = k at h
  interval_cases k <;> decide

theorem digitChar_not_whitespace (n : Nat) : (digitChar n).isWhitespace = false := by
  unfold digitChar
  have h : n % 10 < 10 := Nat.mod_lt _ (by norm_num)
  generalize n % 10 = k at h
  interval_cases k <;> decide

theorem takeDigitsAux_two (a b acc : Nat) (rest : List Char) :
    takeDigitsAux 2 (digitChar a :: digitChar b :: rest) acc =
      (acc * 100 + (a % 10) * 10 + b % 10, rest) := by
  simp only [takeDigitsAux, digitChar_isDigit, if_true, digitChar_toNat,
    Nat.add_sub_cancel_left]
  ring_nf

theorem takeDigitsAux_four (a b c d acc : Nat) (rest : List Char) :
    takeDigitsAux 4 (digitChar a :: digitChar b :: digitChar c :: digitChar d :: rest) acc =
      (acc * 10000 + (a % 10) * 1000 + (b % 10) * 100 + (c % 10) * 10 + d % 10, rest) := by
  simp only [takeDigitsAux, digitChar_isDigit, if_true, digitChar_toNat,
    Nat.add_sub_cancel_left]
  ring_nf

theorem extractNum_pad2 (lo hi m : Nat) (rest : List Char) (hm : m ≤ 99)
    (h1 : lo ≤ m) (h2 : m ≤ hi) :
    extractNum lo hi 2 ((pad2 m).data ++ rest) = some (m, rest) := by
  show extractNum lo hi 2 (digitChar (m / 10) :: digitChar m :: rest) = some (m, rest)
  unfold extractNum
  dsimp only
  rw [digitChar_isDigit, if_pos rfl, takeDigitsAux_two]
  have hv : 0 * 100 + m / 10 % 10 * 10 + m % 10 = m := by omega
  rw [hv, if_pos ⟨h1, h2⟩]

theorem extractNum_pad4 (lo hi y : Nat) (rest : List Char) (hy : y ≤ 9999)
    (h1 : lo ≤ y) (h2 : y ≤ hi) :
    extractNum lo hi 4 ((pad4 y).data ++ rest) = some (y, rest) := by
  show extractNum lo hi 4
    (digitChar (y / 1000) :: digitChar (y / 100) :: digitChar (y / 10) :: digitChar y :: rest) =
    some (y, rest)
  unfold extractNum
  dsimp only
  rw [digitChar_isDigit, if_pos rfl, takeDigitsAux_four]
  have hv : 0 * 10000 + y / 1000 % 10 * 1000 + y / 100 % 10 * 100 + y / 10 % 10 * 10 + y % 10 = y := by
    omega
  rw [hv, if_pos ⟨h1, h2⟩]

theorem expectChar_cons_self (c : Char) (cs : List Char) :
    expectChar c (c :: cs) = some cs := by
  simp [expectChar]

theorem dropWhile_space_pad2 (n : Nat) (rest : List Char) :
    List.dropWhile (fun c => c.isWhitespace) (' ' :: ((pad2 n).data ++ rest)) =
      (pad2 n).data ++ rest := by
  show List.dropWhile _ (' ' :: digitChar (n / 10) :: digitChar n :: rest) =
    digitChar (n / 10) :: digitChar n :: rest
  rw [List.dropWhile_cons, if_pos (by decide), List.dropWhile_cons, digitChar_not_whitespace]
  simp

/-- Round trip: `get_time("%Y:%m:%d %H:%M:%S")` on a well-formed EXIF
timestamp recovers exactly its six fields. -/
theorem parseExifTimestamp_exifFormat (t : TmFields) (hy : t.year ≤ 9999)
    (hm1 : 1 ≤ t.mon) (hm2 : t.mon ≤ 12) (hd1 : 1 ≤ t.day) (hd2 : t.day ≤ 31)
    (hh : t.hour ≤ 23) (hmi : t.minute ≤ 59) (hs : t.sec ≤ 61) :
    parseExifTimestamp (exifFormat t) = some t := by
  have hdata : (exifFormat t).data =
      (pad4 t.year).data ++ ':' :: ((pad2 t.mon).data ++ ':' :: ((pad2 t.day).data ++
        ' ' :: ((pad2 t.hour).data ++ ':' :: ((pad2 t.minute).data ++ ':' :: (pad2 t.sec).data)))) := by
    simp [exifFormat, String.data_append]
  unfold parseExifTimestamp
  rw [hdata]
  dsimp only
  rw [extractNum_pad4 0 9999 t.year _ hy (Nat.zero_le _) hy]
  dsimp only [Option.bind_eq_bind, Option.some_bind]
  rw [expectChar_cons_self]
  dsimp only [Option.bind_eq_bind, Option.some_bind]
  rw [extractNum_pad2 1 12 t.mon _ (le_trans hm2 (by norm_num)) hm1 hm2]
  dsimp only [Option.bind_eq_bind, Option.some_bind]
  rw [expectChar_cons_self]
  dsimp only [Option.bind_eq_bind, Option.some_bind]
  rw [extractNum_pad2 1 31 t.day _ (le_trans hd2 (by norm_num)) hd1 hd2]
  dsimp only [Option.bind_eq_bind, Option.some_bind]
  rw [dropWhile_space_pad2]
  rw [extractNum_pad2 0 23 t.hour _ (le_trans hh (by norm_num)) (Nat.zero_le _) hh]
  dsimp only [Option.bind_eq_bind, Option.some_bind]
  rw [expectChar_cons_self]
  dsimp only [Option.bind_eq_bind, Option.some_bind]
  rw [extractNum_pad2 0 59 t.minute _ (le_trans hmi (by norm_num)) (Nat.zero_le _) hmi]
  dsimp only [Option.bind_eq_bind, Option.some_bind]
  rw [expectChar_cons_self]
  dsimp only [Option.bind_eq_bind, Option.some_bind]
  have hsec : extractNum 0 61 2 ((pad2 t.sec).data ++ []) = some (t.sec, []) :=
    extractNum_pad2 0 61 t.sec [] (le_trans hs (by norm_num)) (Nat.zero_le _) hs
  rw [List.append_nil] at hsec
  rw [hsec]
  rfl

/-- C6: in ExtractMetadata mode, a readable image with a non-empty
`exif:DateTimeOriginal` attribute contributes exactly one stdout line
`<path>\t<timestamp>`, where a well-formed `YYYY:MM:DD HH:MM:SS` attribute
value is reformatted to `YYYY-MM-DD HH:MM:SS`; an image whose attribute is
absent (empty) or whose read fails contributes no output line; and the loop
distributes over concatenation of the delivered entries. -/
theorem C6_extract_metadata_timestamp_lines (B : Backend) (supported : String → Bool) :
    (∀ entry img, B.readImage entry = .ok img →
      img.attributeGet "exif:DateTimeOriginal" ≠ "" →
      ExtractMetadataEntry B entry =
        [Event.readCall entry,
          Event.out (entry ++ "\t" ++
            ConvertExifTimestamp (img.attributeGet "exif:DateTimeOriginal") ++ "\n")]) ∧
    (∀ entry img, B.readImage entry = .ok img →
      img.attributeGet "exif:DateTimeOriginal" = "" →
      ExtractMetadataEntry B entry = [Event.readCall entry]) ∧
    (∀ entry e, B.readImage entry = .error e →
      ExtractMetadataEntry B entry = [Event.readCall entry]) ∧
    (∀ t : TmFields, t.year ≤ 9999 → 1 ≤ t.mon → t.mon ≤ 12 → 1 ≤ t.day →
      t.day ≤ 31 → t.hour ≤ 23 → t.minute ≤ 59 → t.sec ≤ 61 →
      ConvertExifTimestamp (exifFormat t) = putTimeIso t) ∧
    (∀ xs ys, ExtractMetadata B supported (xs ++ ys) =
      ExtractMetadata B supported xs ++ ExtractMetadata B supported ys) := by
  refine ⟨?_, ?_, ?_, ?_, ExtractMetadata_append B supported⟩
  · intro entry img hr hattr
    unfold ExtractMetadataEntry
    rw [hr]
    simp only [ne_eq, hattr, not_false_eq_true, if_pos]
  · intro entry img hr hattr
    unfold ExtractMetadataEntry
    rw [hr]
    simp [hattr]
  · intro entry e hr
    unfold ExtractMetadataEntry
    rw [hr]
  · intro t h1 h2 h3 h4 h5 h6 h7 h8
    unfold ConvertExifTimestamp
    rw [parseExifTimestamp_exifFormat t h1 h2 h3 h4 h5 h6 h7 h8]

/-- Fixture: a backend whose reads succeed and tag the decoded image with
the EXIF capture-time attribute of end-to-end scenario 3. -/
def sampleBackendExif : Backend :=
  ⟨fun p => .ok ((sampleDecoded p).attributeSet "exif:DateTimeOriginal" "2021:05:04 10:00:00"),
   fun _ _ => none, fun _ _ => 0⟩

theorem C6_extract_metadata_timestamp_lines_witness :
    ConvertExifTimestamp "2021:05:04 10:00:00" = "2021-05-04 10:00:00" ∧
    ExtractMetadataEntry sampleBackendExif "A/photo1.jpg" =
      [Event.readCall "A/photo1.jpg", Event.out "A/photo1.jpg\t2021-05-04 10:00:00\n"] := by
  have hc := (C6_extract_metadata_timestamp_lines sampleBackendExif (fun _ => true)).2.2.2.1
    ⟨2021, 5, 4, 10, 0, 0⟩ (by norm_num) (by norm_num) (by norm_num) (by norm_num)
    (by norm_num) (by norm_num) (by norm_num) (by norm_num)
  have he := (C6_extract_metadata_timestamp_lines sampleBackendExif (fun _ => true)).1
    "A/photo1.jpg" ((sampleDecoded "A/photo1.jpg").attributeSet "exif:DateTimeOriginal"
      "2021:05:04 10:00:00") rfl (by decide)
  constructor
  · rw [show ("2021:05:04 10:00:00" : String) =
      exifFormat ⟨2021, 5, 4, 10, 0, 0⟩ from by decide, hc]
    decide
  · rw [he]
    decide

/-- The three events of a successful `Generate` handler run. -/
theorem GenerateEntry_success (B : Backend) (dst entry : String) (img : MImage)
    (hr : B.readImage entry = .ok img)
    (hw : B.writeImage (destinationPath dst entry) (GeneratedFingerprint img entry) = none) :
    GenerateEntry B dst entry =
      [Event.out (entry ++ "\n"), Event.readCall entry,
        Event.write (destinationPath dst entry) (GeneratedFingerprint img entry)] := by
  unfold GenerateEntry
  rw [hr]
  simp only [hw]

/-- C2 counterexample: with destination directory string "B", the
fingerprint of source "A/photo1.jpg" is written at path "Bphoto1.tif" —
`operator+=` concatenates without inserting a directory separator — which
is not the path "B/photo1.tif" of a file named photo1.tif inside directory
B as the claim requires. -/
theorem C2_fingerprint_path_counterexample :
    writeEvents (GenerateEntry sampleBackendZero "B" "A/photo1.jpg") =
      [("Bphoto1.tif", GeneratedFingerprint (sampleDecoded "A/photo1.jpg") "A/photo1.jpg")] ∧
    ("Bphoto1.tif" : String) ≠ "B/photo1.tif" := by
  exact ⟨by decide, by decide⟩

/-- C2 (amended): for every source image that Generate processes
successfully, exactly one fingerprint file is written, at the path obtained
by appending the new filename — the original filename with its extension
replaced by ".tif" — directly to the destination-directory string with no
separator inserted (which lies inside the destination directory exactly
when that string ends with a separator); the written image has compression
disabled, is resized to the fixed fingerprint spec, and carries a `comment`
attribute equal to the original source path. -/
theorem C2_generate_writes_single_normalized_fingerprint
    (B : Backend) (dst entry : String) (img : MImage)
    (hr : B.readImage entry = .ok img)
    (hw : B.writeImage (destinationPath dst entry) (GeneratedFingerprint img entry) = none) :
    writeEvents (GenerateEntry B dst entry) =
      [(dst ++ replaceExtension (pathFilename entry) ".tif", GeneratedFingerprint img entry)] ∧
    (GeneratedFingerprint img entry).compression = CompressionType.NoCompression ∧
    (GeneratedFingerprint img entry).geometry = some FingerprintSpec ∧
    (GeneratedFingerprint img entry).depthVal = 32 ∧
    (GeneratedFingerprint img entry).attributeGet "comment" = entry := by
  refine ⟨?_, rfl, rfl, rfl, rfl⟩
  rw [GenerateEntry_success B dst entry img hr hw]
  rfl

theorem C2_generate_writes_single_normalized_fingerprint_witness :
    sampleBackendZero.readImage "A/photo1.jpg" = .ok (sampleDecoded "A/photo1.jpg") ∧
    writeEvents (GenerateEntry sampleBackendZero "B/" "A/photo1.jpg") =
      [("B/" ++ replaceExtension (pathFilename "A/photo1.jpg") ".tif",
        GeneratedFingerprint (sampleDecoded "A/photo1.jpg") "A/photo1.jpg")] :=
  ⟨rfl, (C2_generate_writes_single_normalized_fingerprint sampleBackendZero "B/" "A/photo1.jpg"
    (sampleDecoded "A/photo1.jpg") rfl rfl).1⟩

/-- C10: the destination fingerprint path depends only on the source file's
basename, so two sources in different subdirectories with the same basename
map to the same destination path, and after a Generate run in which both
are processed successfully the content on disk at that path is the
fingerprint of the one processed later (the earlier write — which did
occur — is overwritten). -/
theorem C10_same_basename_overwrites
    (B : Backend) (supported : String → Bool) (dst : String)
    (pre mid : List String) (e1 e2 : String) (img1 img2 : MImage)
    (hs1 : supported e1 = true) (hs2 : supported e2 = true)
    (hbase : pathFilename e1 = pathFilename e2)
    (hr1 : B.readImage e1 = .ok img1)
    (hw1 : B.writeImage (destinationPath dst e1) (GeneratedFingerprint img1 e1) = none)
    (hr2 : B.readImage e2 = .ok img2)
    (hw2 : B.writeImage (destinationPath dst e2) (GeneratedFingerprint img2 e2) = none) :
    destinationPath dst e1 = destinationPath dst e2 ∧
    Event.write (destinationPath dst e1) (GeneratedFingerprint img1 e1) ∈
      Generate B supported dst (pre ++ e1 :: (mid ++ [e2])) ∧
    writtenAt (Generate B supported dst (pre ++ e1 :: (mid ++ [e2])))
      (destinationPath dst e1) = some (GeneratedFingerprint img2 e2) := by
  have hdp : destinationPath dst e1 = destinationPath dst e2 := by
    unfold destinationPath
    rw [hbase]
  have hrun : Generate B supported dst (pre ++ e1 :: (mid ++ [e2])) =
      Generate B supported dst pre ++ (GenerateEntry B dst e1 ++
        (Generate B supported dst mid ++ GenerateEntry B dst e2)) := by
    rw [Generate_append]
    congr 1
    rw [Generate, if_pos hs1]
    congr 1
    rw [Generate_append]
    congr 1
    rw [Generate, if_pos hs2]
    simp [Generate]
  refine ⟨hdp, ?_, ?_⟩
  · rw [hrun]
    have hmem : Event.write (destinationPath dst e1) (GeneratedFingerprint img1 e1) ∈
        GenerateEntry B dst e1 := by
      rw [GenerateEntry_success B dst e1 img1 hr1 hw1]
      simp
    exact List.mem_append.mpr (Or.inr (List.mem_append.mpr (Or.inl hmem)))
  · rw [hrun]
    unfold writtenAt
    rw [List.foldl_append, List.foldl_append, List.foldl_append,
      GenerateEntry_success B dst e2 img2 hr2 hw2]
    simp only [List.foldl_cons, List.foldl_nil]
    rw [hdp]
    simp

theorem C10_same_basename_overwrites_witness :
    pathFilename "A/photo1.jpg" = pathFilename "A2/photo1.jpg" ∧
    destinationPath "B/" "A/photo1.jpg" = destinationPath "B/" "A2/photo1.jpg" ∧
    writtenAt (Generate sampleBackendZero (fun _ => true) "B/"
        ["A/photo1.jpg", "A2/photo1.jpg"]) (destinationPath "B/" "A/photo1.jpg") =
      some (GeneratedFingerprint (sampleDecoded "A2/photo1.jpg") "A2/photo1.jpg") := by
  have h := C10_same_basename_overwrites sampleBackendZero (fun _ => true) "B/"
    [] [] "A/photo1.jpg" "A2/photo1.jpg"
    (sampleDecoded "A/photo1.jpg") (sampleDecoded "A2/photo1.jpg")
    rfl rfl (by decide) rfl rfl rfl rfl
  exact ⟨by decide, h.1, h.2.2⟩

theorem mainStartup_usage_of_bad_mode_sum (isDirectory : String → Bool) (o : CmdOptions)
    (h : o.generateMode.toNat + o.findDuplicateMode.toNat + o.metadataMode.toNat ≠ 1) :
    mainStartup isDirectory o = .usageExit := by
  unfold mainStartup
  rw [if_pos h]

theorem mainStartup_usage_of_missing_dir_arg (isDirectory : String → Bool) (o : CmdOptions)
    (hmode : o.generateMode = true ∨ o.findDuplicateMode = true)
    (hdirs : o.srcDirectory = "" ∨ o.dstDirectory = "") :
    mainStartup isDirectory o = .usageExit := by
  by_cases hsum : o.generateMode.toNat + o.findDuplicateMode.toNat + o.metadataMode.toNat ≠ 1
  · exact mainStartup_usage_of_bad_mode_sum isDirectory o hsum
  · unfold mainStartup
    rw [if_neg hsum]
    have h1 : (o.generateMode || o.findDuplicateMode) = true := by
      rcases hmode with h | h <;> simp [h]
    have h2 : (decide (o.srcDirectory = "") || decide (o.dstDirectory = "")) = true := by
      rcases hdirs with h | h <;> simp [h]
    rw [if_pos (by rw [h1, h2]; rfl)]

theorem mainStartup_usage_of_bad_threads (isDirectory : String → Bool) (o : CmdOptions)
    (h : o.numThreads < 1) :
    mainStartup isDirectory o = .usageExit := by
  unfold mainStartup
  split_ifs with h1 h2 <;> rfl

theorem mainStartup_invalidDir (isDirectory : String → Bool) (o : CmdOptions)
    (hmode : o.generateMode = true ∨ o.findDuplicateMode = true)
    (hsum : o.generateMode.toNat + o.findDuplicateMode.toNat + o.metadataMode.toNat = 1)
    (hsrc : o.srcDirectory ≠ "") (hdst : o.dstDirectory ≠ "")
    (hn : 1 ≤ o.numThreads)
    (hvalid : areDirectoriesValid isDirectory o.srcDirectory o.dstDirectory = false) :
    mainStartup isDirectory o = .invalidDirExit := by
  have hmeta : o.metadataMode = false := by
    cases hm : o.metadataMode
    · rfl
    · exfalso
      rcases hmode with h | h <;> rw [h, hm] at hsum <;>
        simp only [Bool.toNat_true] at hsum <;> omega
  unfold mainStartup
  rw [if_neg (by omega)]
  rw [if_neg (by simp [hsrc, hdst])]
  rw [if_neg (by omega)]
  rw [if_pos (by rw [hmeta, hvalid]; rfl)]

theorem mainStartup_metadata_skips_dir_validation (isDirectory : String → Bool) (o : CmdOptions)
    (hm : o.metadataMode = true) (hg : o.generateMode = false)
    (hf : o.findDuplicateMode = false) (hn : 1 ≤ o.numThreads) :
    mainStartup isDirectory o = .run false false true := by
  unfold mainStartup
  rw [if_neg (by rw [hm, hg, hf]; simp)]
  rw [if_neg (by rw [hg, hf]; simp)]
  rw [if_neg (by omega)]
  rw [if_neg (by rw [hm]; simp)]
  rw [hg, hf, hm]

/-- C8 counterexample: in metadata mode the source directory is required
(the mode traverses it), yet with a filesystem on which no path is a
directory and an empty destination argument, startup performs neither the
directory-argument check nor the directory-existence check and proceeds to
run the mode, instead of exiting with failure as the claim states for every
mode. -/
theorem C8_metadata_mode_skips_directory_validation_counterexample :
    (fun (_ : String) => false) "/photos" = false ∧
    mainStartup (fun _ => false) ⟨true, false, false, "/photos", "", 4⟩ =
      .run false false true ∧
    mainStartup (fun _ => false) ⟨true, false, false, "/photos", "", 4⟩ ≠ .usageExit ∧
    mainStartup (fun _ => false) ⟨true, false, false, "/photos", "", 4⟩ ≠ .invalidDirExit := by
  refine ⟨rfl, by decide, by decide, by decide⟩

/-- C8 (amended): an invalid mode combination (not exactly one mode) or a
non-positive thread count aborts the run at startup with `usage()`'s failure
exit in every mode; in generate and find-duplicates modes a missing required
directory argument aborts via `usage()`, and a source or destination path
that is not an existing directory aborts with failure status before any
traversal; metadata mode, however, performs neither the directory-argument
check nor the directory-existence check and proceeds to run. -/
theorem C8_startup_validation (isDirectory : String → Bool) (o : CmdOptions) :
    (o.generateMode.toNat + o.findDuplicateMode.toNat + o.metadataMode.toNat ≠ 1 →
      mainStartup isDirectory o = .usageExit) ∧
    ((o.generateMode = true ∨ o.findDuplicateMode = true) →
      (o.srcDirectory = "" ∨ o.dstDirectory = "") →
      mainStartup isDirectory o = .usageExit) ∧
    (o.numThreads < 1 → mainStartup isDirectory o = .usageExit) ∧
    ((o.generateMode = true ∨ o.findDuplicateMode = true) →
      o.generateMode.toNat + o.findDuplicateMode.toNat + o.metadataMode.toNat = 1 →
      o.srcDirectory ≠ "" → o.dstDirectory ≠ "" → 1 ≤ o.numThreads →
      areDirectoriesValid isDirectory o.srcDirectory o.dstDirectory = false →
      mainStartup isDirectory o = .invalidDirExit) ∧
    (o.metadataMode = true → o.generateMode = false → o.findDuplicateMode = false →
      1 ≤ o.numThreads → mainStartup isDirectory o = .run false false true) :=
  ⟨mainStartup_usage_of_bad_mode_sum isDirectory o,
   mainStartup_usage_of_missing_dir_arg isDirectory o,
   mainStartup_usage_of_bad_threads isDirectory o,
   fun hmode hsum hsrc hdst hn hvalid =>
     mainStartup_invalidDir isDirectory o hmode hsum hsrc hdst hn hvalid,
   fun hm hg hf hn => mainStartup_metadata_skips_dir_validation isDirectory o hm hg hf hn⟩

theorem C8_startup_validation_witness :
    areDirectoriesValid (fun _ => false) "/photos" "/fps" = false ∧
    mainStartup (fun _ => false) ⟨false, true, false, "/photos", "/fps", 4⟩ =
      .invalidDirExit :=
  ⟨rfl, (C8_startup_validation (fun _ => false)
    ⟨false, true, false, "/photos", "/fps", 4⟩).2.2.2.1
    (Or.inl rfl) rfl (by decide) (by decide) (by decide) rfl⟩

/-- C9: `Load` reads each supported fingerprint file with no per-file error
handling: when a supported entry's read fails (all entries before it being
readable), the backend's exception propagates out of `LoadAux` and `Load`,
aborting the preload — no fingerprints are returned and no later entry is
processed — whereas the three mode handlers catch per-file failures and
continue: on the same delivered entries each loop's trace decomposes around
the failing entry and still contains the processing of every later entry. -/
theorem C9_load_propagates_read_failure
    (B : Backend) (supported : String → Bool) (dst : String) (low high : ℚ)
    (fuzzFactor : Int) (fps : List (MImage × String))
    (pre post : List String) (e r : String)
    (hpre : ∀ p ∈ pre, supported p = true → ∃ img, B.readImage p = .ok img)
    (hs : supported e = true) (hr : B.readImage e = .error r) :
    (∀ count, LoadAux B supported (pre ++ e :: post) count = .error r) ∧
    Load B supported (pre ++ e :: post) = .error r ∧
    Generate B supported dst (pre ++ e :: post) =
      Generate B supported dst pre ++ GenerateEntry B dst e ++
        Generate B supported dst post ∧
    FindDuplicates B supported low high fuzzFactor fps (pre ++ e :: post) =
      FindDuplicates B supported low high fuzzFactor fps pre ++ [Event.readCall e] ++
        FindDuplicates B supported low high fuzzFactor fps post ∧
    ExtractMetadata B supported (pre ++ e :: post) =
      ExtractMetadata B supported pre ++ [Event.readCall e] ++
        ExtractMetadata B supported post := by
  have hload : ∀ (l : List String),
      (∀ p ∈ l, supported p = true → ∃ img, B.readImage p = .ok img) →
      ∀ count, LoadAux B supported (l ++ e :: post) count = .error r := by
    intro l
    induction l with
    | nil =>
      intro _ count
      rw [List.nil_append, LoadAux, if_pos hs, hr]
    | cons p ps ih =>
      intro hl count
      rw [List.cons_append, LoadAux]
      by_cases hsp : supported p = true
      · rw [if_pos hsp]
        obtain ⟨img, himg⟩ := hl p (List.mem_cons_self p ps) hsp
        rw [himg, ih (fun q hq hsq => hl q (List.mem_cons_of_mem p hq) hsq) (count + 1)]
      · rw [if_neg hsp]
        exact ih (fun q hq hsq => hl q (List.mem_cons_of_mem p hq) hsq) count
  have hfde : FindDuplicatesEntry B low high fuzzFactor fps e = [Event.readCall e] := by
    unfold FindDuplicatesEntry
    rw [hr]
  have heme : ExtractMetadataEntry B e = [Event.readCall e] := by
    unfold ExtractMetadataEntry
    rw [hr]
  refine ⟨hload pre hpre, ?_, ?_, ?_, ?_⟩
  · unfold Load
    rw [hload pre hpre 0]
  · rw [Generate_append, Generate, if_pos hs, List.append_assoc]
  · rw [FindDuplicates_append, FindDuplicates, if_pos hs, hfde, List.append_assoc]
  · rw [ExtractMetadata_append, ExtractMetadata, if_pos hs, heme, List.append_assoc]

/-- Fixture: a backend on which exactly the file "B/corrupt.tif" is
unreadable. -/
def sampleBackendOneBad : Backend :=
  ⟨fun p => if p = "B/corrupt.tif" then .error "corrupt" else .ok (sampleDecoded p),
   fun _ _ => none, fun _ _ => 0⟩

theorem C9_load_propagates_read_failure_witness :
    sampleBackendOneBad.readImage "B/corrupt.tif" = .error "corrupt" ∧
    Load sampleBackendOneBad (fun _ => true)
      ["B/good.tif", "B/corrupt.tif", "B/late.tif"] = .error "corrupt" ∧
    ExtractMetadata sampleBackendOneBad (fun _ => true)
        ["B/good.tif", "B/corrupt.tif", "B/late.tif"] =
      ExtractMetadata sampleBackendOneBad (fun _ => true) ["B/good.tif"] ++
        [Event.readCall "B/corrupt.tif"] ++
        ExtractMetadata sampleBackendOneBad (fun _ => true) ["B/late.tif"] := by
  have h := C9_load_propagates_read_failure sampleBackendOneBad (fun _ => true) "B/" 1 2 0 []
    ["B/good.tif"] ["B/late.tif"] "B/corrupt.tif" "corrupt"
    (by
      intro p hp _
      simp only [List.mem_singleton] at hp
      subst hp
      exact ⟨sampleDecoded "B/good.tif", rfl⟩)
    rfl rfl
  exact ⟨rfl, h.2.1, h.2.2.2.2⟩
